import Mathlib

/-!
Verification of the Water_quality_tester repository's authentication and
profile-completion core, as a shallow embedding in Lean 4.

The embedded code:
- `server.js` (Express backend): POST /api/signup, POST /api/login,
  POST /api/profile, POST /api/google-auth, GET /api/users, and the
  `readUsers`/`writeUsers` JSON-file helpers.
- `AuthContext.jsx` (client session): signup/login/googleLogin/saveProfile/
  logout handlers and the session-restore effect.
- Route guards: `ProtectedRoute.jsx`, the redirect in `AuthPage.jsx`, and
  the redirects in `ProfileSetupPage.jsx`.

JavaScript values are modelled as follows: strings are `String` (a missing
or empty request field is `""`, which is falsy in JS exactly like a missing
one at the `!field` checks used by the server); `null`-able fields are
`Option`; a JSON object of string fields is an association list
`List (String × String)` looked up first-match-wins, matching JS object
semantics extensionally.
-/

namespace WQ

/-- JSON object of string-valued fields, as sent in request bodies and
stored in `profile`. First match wins on lookup, like a JS object. -/
abbrev Obj := List (String × String)

/-- Lookup of a field in a JS object (first binding wins). -/
def objGet : Obj → String → Option String
  | [], _ => none
  | (k, v) :: rest, key => if k = key then some v else objGet rest key

/-- One record of `data/users.json`: `{ email, password, googleAuth?,
createdAt, profile }` as built by the signup and google-auth routes in
`server.js`. `password` is `null` for Google-provisioned accounts;
`googleAuth` is the (absent-or-true) marker flag. -/
structure Account where
  email : String
  password : Option String
  googleAuth : Bool
  createdAt : String
  profile : Option Obj
deriving DecidableEq

/-- The client-side session held by `AuthContext.jsx`: `currentUser`
(email string or null) and `profile` (object or null). -/
structure ClientSession where
  currentUser : Option String
  profile : Option Obj
deriving DecidableEq

/-- JS truthiness of the `currentUser` value: `null` and `""` are falsy,
any other string truthy (`if (!currentUser)` in the guards). -/
def jsTruthyUser : Option String → Bool
  | none => false
  | some s => !s.isEmpty

/-- `isProfileComplete: !!profile` from `AuthContext.jsx`: any object
(including `{}`) is truthy, `null` is falsy. -/
def isProfileComplete (s : ClientSession) : Bool := s.profile.isSome

/-- The three pages the Route Guard decides between. -/
inductive Page
  | loginPage
  | setupPage
  | dashboardPage
deriving DecidableEq

/-- A navigation decision: render the requested page, or `<Navigate to=…>`. -/
inductive Decision
  | allow
  | redirect (target : Page)
deriving DecidableEq

/-- `ProtectedRoute.jsx` (guards `/dashboard`): no user → `/login`;
user but no profile → `/setup`; otherwise render children. -/
def protectedRouteDecision (s : ClientSession) : Decision :=
  if !jsTruthyUser s.currentUser then .redirect .loginPage
  else if !isProfileComplete s then .redirect .setupPage
  else .allow

/-- The redirect at the top of `AuthPage.jsx` (`/login`): a logged-in user
is sent to `/dashboard` when the profile is complete, else to `/setup`;
otherwise the auth page renders. -/
def authPageDecision (s : ClientSession) : Decision :=
  if jsTruthyUser s.currentUser then
    .redirect (if isProfileComplete s then .dashboardPage else .setupPage)
  else .allow

/-- The redirects at the top of `ProfileSetupPage.jsx` (`/setup`): no user →
`/login`; profile already complete → `/dashboard`; otherwise render. -/
def profileSetupDecision (s : ClientSession) : Decision :=
  if !jsTruthyUser s.currentUser then .redirect .loginPage
  else if isProfileComplete s then .redirect .dashboardPage
  else .allow

/-- The whole Route Guard: which component decides each requested page,
per the route map in `App.jsx`. -/
def routeGuard (s : ClientSession) : Page → Decision
  | .loginPage => authPageDecision s
  | .setupPage => profileSetupDecision s
  | .dashboardPage => protectedRouteDecision s

/-- The spec's tri-state session classification (§4.3/§4.4). -/
inductive SpecSessionState
  | anonymous
  | authNoProfile
  | authWithProfile
deriving DecidableEq

/-- Modelled from the spec: the 9-entry Route Guard table of §4.4,
transcribed row by row. -/
def specRouteTable : SpecSessionState → Page → Decision
  | .anonymous, .loginPage => .allow
  | .anonymous, .setupPage => .redirect .loginPage
  | .anonymous, .dashboardPage => .redirect .loginPage
  | .authNoProfile, .loginPage => .redirect .setupPage
  | .authNoProfile, .setupPage => .allow
  | .authNoProfile, .dashboardPage => .redirect .setupPage
  | .authWithProfile, .loginPage => .redirect .dashboardPage
  | .authWithProfile, .setupPage => .redirect .dashboardPage
  | .authWithProfile, .dashboardPage => .allow

/-- Abstraction of a concrete client session to the spec's tri-state:
anonymous when `currentUser` is JS-falsy, otherwise split on profile
presence. -/
def sessionClass (s : ClientSession) : SpecSessionState :=
  if !jsTruthyUser s.currentUser then .anonymous
  else if isProfileComplete s then .authWithProfile
  else .authNoProfile

/-! ## The bcryptjs collaborator

`server.js` hashes and compares passwords through the external `bcryptjs`
library. We model it by an ideal injective salted hash (the spec treats
hashing parameters as a pluggable policy). One behaviour of the library is
load-bearing for the spec's claims and is modelled faithfully:
`bcrypt.compare(s, hash)` rejects with `Error("Illegal arguments: …")`
whenever the stored hash is not a string — in particular when it is the
`null` stored for Google-provisioned accounts — instead of resolving
`false`. Inside the `async` route handler of Express 4 that rejection is
unhandled: the request gets no HTTP response at all. -/

/-- Ideal model of `bcrypt.hash(p, SALT_ROUNDS)`: injective, one-way. -/
def bcryptHash (p : String) : String := "$2b$10$" ++ p

/-- Outcome of `bcrypt.compare`: a boolean, or the `Illegal arguments`
rejection raised when the stored hash is `null` (not a string). -/
inductive CompareOutcome
  | ok (b : Bool)
  | illegalArgs
deriving DecidableEq

/-- Model of `await bcrypt.compare(password, storedHash)` where the stored
hash comes from `user.password` (`null` for Google accounts). -/
def bcryptCompare (password : String) (storedHash : Option String) :
    CompareOutcome :=
  match storedHash with
  | none => .illegalArgs
  | some h => .ok (h = bcryptHash password)

/-! ## The Express routes of `server.js`

Each route is a function of the current `users` array (plus the request
fields and, where the route calls `new Date()`, a timestamp argument) to a
result and the written-back array. A missing or empty request field is the
empty string, which fails the server's `!field` checks exactly like a
missing one. -/

/-- Result of POST /api/signup. -/
inductive SignupResult
  | badRequest
  | conflict
  | created (email : String)
deriving DecidableEq

/-- POST /api/signup from `server.js`: reject missing fields (400), reject
a duplicate email (409), otherwise push a new user with the bcrypt hash,
`createdAt` stamped `now`, `profile: null`, and persist. -/
def signup (users : List Account) (email password now : String) :
    SignupResult × List Account :=
  if email.isEmpty || password.isEmpty then (.badRequest, users)
  else if (users.find? (fun u => u.email = email)).isSome then
    (.conflict, users)
  else
    (.created email,
     users ++ [⟨email, some (bcryptHash password), false, now, none⟩])

/-- Result of POST /api/login. `serverError` is the unhandled rejection of
`bcrypt.compare` on a `null` stored hash: the handler produces no HTTP
response. -/
inductive LoginResult
  | badRequest
  | notFound
  | wrongCredential
  | ok (email : String) (profile : Option Obj)
  | serverError
deriving DecidableEq

/-- POST /api/login from `server.js`: 400 on missing fields, 404 when no
account has the email, then `bcrypt.compare` against the stored hash —
401 on mismatch, 200 with `{email, profile: user.profile || null}` on
match, and the unhandled `Illegal arguments` rejection when the stored
hash is `null`. -/
def login (users : List Account) (email password : String) : LoginResult :=
  if email.isEmpty || password.isEmpty then .badRequest
  else
    match users.find? (fun u => u.email = email) with
    | none => .notFound
    | some user =>
      match bcryptCompare password user.password with
      | .illegalArgs => .serverError
      | .ok false => .wrongCredential
      | .ok true => .ok user.email user.profile

/-- Result of POST /api/profile. -/
inductive ProfileResult
  | badRequest
  | notFound
  | saved (profile : Obj)
deriving DecidableEq

/-- The object stored by `users[idx].profile = { ...profile, completedAt:
new Date().toISOString() }`: all fields of the client object, with
`completedAt` bound to the server timestamp (a client-sent `completedAt`
is overridden by the spread-then-set order). -/
def stampProfile (p : Obj) (now : String) : Obj :=
  p.filter (fun kv => kv.1 ≠ "completedAt") ++ [("completedAt", now)]

/-- Replacement of the `profile` field on the first account matching
`email`, as done by `findIndex` plus in-place assignment. -/
def setProfileList : List Account → String → Obj → List Account
  | [], _, _ => []
  | u :: rest, email, newP =>
    if u.email = email then { u with profile := some newP } :: rest
    else u :: setProfileList rest email newP

/-- POST /api/profile from `server.js`: 400 on missing email, 404 when no
account matches, otherwise overwrite the account's `profile` with the
stamped object and persist. -/
def setProfile (users : List Account) (email : String) (p : Obj)
    (now : String) : ProfileResult × List Account :=
  if email.isEmpty then (.badRequest, users)
  else if (users.find? (fun u => u.email = email)).isSome then
    (.saved (stampProfile p now), setProfileList users email (stampProfile p now))
  else (.notFound, users)

/-- Result of POST /api/google-auth. -/
inductive GoogleResult
  | badRequest
  | invalidToken
  | ok (email name : String) (profile : Option Obj)
deriving DecidableEq

/-- POST /api/google-auth from `server.js`, parameterized by the external
Identity Verifier (`GOOGLE_CLIENT.verifyIdToken`, returning the payload's
email and name or failing): 400 on missing token, 401 on failed
verification; otherwise find the account, auto-creating
`{email, password: null, googleAuth: true, createdAt: now, profile: null}`
when absent, and answer with the account's email and profile. -/
def googleAuth (verify : String → Option (String × String))
    (users : List Account) (credential now : String) :
    GoogleResult × List Account :=
  if credential.isEmpty then (.badRequest, users)
  else
    match verify credential with
    | none => (.invalidToken, users)
    | some (email, name) =>
      match users.find? (fun u => u.email = email) with
      | some user => (.ok user.email name user.profile, users)
      | none =>
        (.ok email name none,
         users ++ [⟨email, none, true, now, none⟩])

/-- An account as returned by GET /api/users: the destructuring
`({ password, ...rest }) => rest` keeps every field but `password`. -/
structure PublicAccount where
  email : String
  googleAuth : Bool
  createdAt : String
  profile : Option Obj
deriving DecidableEq

/-- The per-account masking of GET /api/users. -/
def toPublic (a : Account) : PublicAccount :=
  ⟨a.email, a.googleAuth, a.createdAt, a.profile⟩

/-- GET /api/users from `server.js`: every stored account, password
removed. -/
def listAccounts (users : List Account) : List PublicAccount :=
  users.map toPublic

/-! ## The durable account file (`data/users.json`) -/

/-- State of the durable account file as `readUsers` can find it: readable
with a well-formed `{ users: [...] }` document, missing, unreadable,
holding unparseable JSON, or parseable JSON without a truthy `users`
field. -/
inductive FileContent
  | stored (users : List Account)
  | missing
  | unreadable
  | malformed
  | noUsersKey
deriving DecidableEq

/-- `readUsers` from `server.js`: `JSON.parse(raw).users || []`, with the
`try/catch` turning a read or parse failure into `[]`. -/
def readUsers : FileContent → List Account
  | .stored users => users
  | .missing => []
  | .unreadable => []
  | .malformed => []
  | .noUsersKey => []

/-- `writeUsers` from `server.js`: rewrite the whole document. -/
def writeUsers (users : List Account) : FileContent := .stored users

/-- The corruption cases named by the spec: file missing, unreadable, or
holding unparseable JSON. -/
def corruptedFile (f : FileContent) : Prop :=
  f = .missing ∨ f = .unreadable ∨ f = .malformed

instance : DecidablePred corruptedFile := fun f => by
  unfold corruptedFile; infer_instance

/-- POST /api/signup at the file level: read, run, and persist only on the
success path (`writeUsers` is reached only after the push). -/
def fileSignup (f : FileContent) (email password now : String) :
    SignupResult × FileContent :=
  match signup (readUsers f) email password now with
  | (.created e, users) => (.created e, writeUsers users)
  | (r, _) => (r, f)

/-- POST /api/login at the file level (the route never writes). -/
def fileLogin (f : FileContent) (email password : String) : LoginResult :=
  login (readUsers f) email password

/-- POST /api/profile at the file level: persists only on the success
path. -/
def fileSetProfile (f : FileContent) (email : String) (p : Obj)
    (now : String) : ProfileResult × FileContent :=
  match setProfile (readUsers f) email p now with
  | (.saved q, users) => (.saved q, writeUsers users)
  | (r, _) => (r, f)

/-! ## The client session layer (`AuthContext.jsx`) -/

/-- The session-restore effect of `AuthProvider`: read the durable marker
(`localStorage.getItem('wqm_current')`, `none` for absent and falsy for
`""`); when truthy, set `currentUser` to it unconditionally and set
`profile` from the GET /api/users listing (`user?.profile || null` — a
missing account degrades to a `null` profile only). -/
def restoreSession (marker : Option String) (users : List Account) :
    ClientSession :=
  match marker with
  | none => ⟨none, none⟩
  | some savedEmail =>
    if savedEmail.isEmpty then ⟨none, none⟩
    else
      ⟨some savedEmail,
       match users.find? (fun u => u.email = savedEmail) with
       | some user => user.profile
       | none => none⟩

/-- The session update of the `signup` handler in `AuthContext.jsx`: on a
2xx response set `currentUser` to the submitted email and `profile` to
`null`; on an error response leave the session alone. -/
def sessionAfterSignup (sess : ClientSession) (email : String)
    (r : SignupResult) : ClientSession :=
  match r with
  | .created _ => ⟨some email, none⟩
  | _ => sess

/-- The session update of the `login` handler in `AuthContext.jsx`: on a
2xx response set `currentUser` to the submitted email and `profile` to
`data.profile || null`; otherwise leave the session alone (on the hung
`serverError` request the `fetch` never resolves). -/
def sessionAfterLogin (sess : ClientSession) (email : String)
    (r : LoginResult) : ClientSession :=
  match r with
  | .ok _ profile => ⟨some email, profile⟩
  | _ => sess

/-! ## Helper lemmas -/

lemma isEmpty_false {s : String} (h : s ≠ "") : s.isEmpty = false := by
  rw [Bool.eq_false_iff]
  simp [String.isEmpty_iff, h]

lemma bcryptHash_injective {p w : String} (h : bcryptHash p = bcryptHash w) :
    p = w := by
  have h2 : ("$2b$10$" ++ p).data = ("$2b$10$" ++ w).data := by
    simpa [bcryptHash] using congrArg String.data h
  simp only [String.data_append] at h2
  exact String.ext (List.append_cancel_left h2)

lemma objGet_append (l₁ l₂ : Obj) (k : String) :
    objGet (l₁ ++ l₂) k = (objGet l₁ k).or (objGet l₂ k) := by
  induction l₁ with
  | nil => simp [objGet]
  | cons kv rest ih =>
    obtain ⟨k1, v1⟩ := kv
    by_cases h : k1 = k <;> simp [objGet, h, ih]

lemma objGet_filter_completedAt (p : Obj) :
    objGet (p.filter (fun kv => kv.1 ≠ "completedAt")) "completedAt" = none := by
  induction p with
  | nil => rfl
  | cons kv rest ih =>
    obtain ⟨k1, v1⟩ := kv
    simp only [List.filter_cons]
    by_cases h : k1 = "completedAt"
    · simpa [h, objGet] using ih
    · simpa [h, objGet] using ih

lemma objGet_stampProfile (p : Obj) (now : String) :
    objGet (stampProfile p now) "completedAt" = some now := by
  unfold stampProfile
  rw [objGet_append, objGet_filter_completedAt]
  simp [objGet]

lemma stampProfile_time_ne {p : Obj} {t1 t2 : String} (h : t1 ≠ t2) :
    stampProfile p t1 ≠ stampProfile p t2 := by
  intro he
  have h2 := congrArg (fun o => objGet o "completedAt") he
  simp only [objGet_stampProfile, Option.some.injEq] at h2
  exact h h2

lemma setProfileList_find? {users : List Account} {E : String} {u : Account}
    (h : users.find? (fun a => a.email = E) = some u) (q : Obj) :
    (setProfileList users E q).find? (fun a => a.email = E)
      = some { u with profile := some q } := by
  induction users with
  | nil => simp at h
  | cons a rest ih =>
    by_cases ha : a.email = E
    · rw [List.find?_cons_of_pos _ (by simpa using ha)] at h
      cases h
      simp [setProfileList, ha, List.find?_cons_of_pos]
    · rw [List.find?_cons_of_neg _ (by simpa using ha)] at h
      simpa [setProfileList, ha, List.find?_cons_of_neg] using ih h

lemma setProfileList_map_eraseProfile (users : List Account) (E : String)
    (q : Obj) :
    (setProfileList users E q).map (fun a => { a with profile := none })
      = users.map (fun a => { a with profile := none }) := by
  induction users with
  | nil => rfl
  | cons a rest ih =>
    by_cases ha : a.email = E <;> simp [setProfileList, ha, ih]

lemma setProfileList_getElem?_ne (users : List Account) (E : String) (q : Obj) :
    ∀ (i : Nat) (a : Account), users[i]? = some a → a.email ≠ E →
      (setProfileList users E q)[i]? = some a := by
  induction users with
  | nil => intro i a h _; simp at h
  | cons u rest ih =>
    intro i a h hne
    by_cases hu : u.email = E
    · cases i with
      | zero =>
        simp only [List.getElem?_cons_zero, Option.some.injEq] at h
        exact absurd (h ▸ hu) hne
      | succ j => simpa [setProfileList, hu] using h
    · cases i with
      | zero => simpa [setProfileList, hu] using h
      | succ j =>
        simp only [List.getElem?_cons_succ] at h
        simpa [setProfileList, hu] using ih j a h hne

end WQ

namespace WQ

/-- C1: for every client session and every requested page, the navigation
decision computed by the code's guards (`ProtectedRoute.jsx`,
`AuthPage.jsx`, `ProfileSetupPage.jsx`) is exactly the decision prescribed
by the 9-entry table of spec §4.4 for the session's tri-state class. -/
theorem c1_route_guard_table (s : ClientSession) (p : Page) :
    routeGuard s p = specRouteTable (sessionClass s) p := by
  cases p <;>
    simp only [routeGuard, authPageDecision, profileSetupDecision,
      protectedRouteDecision, sessionClass, specRouteTable] <;>
    rcases h : jsTruthyUser s.currentUser <;>
    rcases h2 : isProfileComplete s <;>
    simp [h, h2, specRouteTable]

/-- C2: the google-auth route on a token verifying to a brand-new email
does auto-create an Account with `password: null` and `profile: null`, and
a later password login on that email is indeed never `NotFound` — but it
is not `WrongCredential` either: `bcrypt.compare` rejects on the `null`
stored hash (`Illegal arguments`), the rejection is unhandled in the
`async` route, and the request gets no HTTP response at all. Evaluated at
the concrete failing input. -/
theorem c2_externalLogin_then_login_crashes :
    (googleAuth
        (fun tok => if tok = "tok1" then some ("new@user.dev", "New User") else none)
        [] "tok1" "T0")
      = (.ok "new@user.dev" "New User" none,
         [⟨"new@user.dev", none, true, "T0", none⟩])
    ∧ login [⟨"new@user.dev", none, true, "T0", none⟩] "new@user.dev" "password123"
        = .serverError
    ∧ login [⟨"new@user.dev", none, true, "T0", none⟩] "new@user.dev" "password123"
        ≠ .wrongCredential
    ∧ login [⟨"new@user.dev", none, true, "T0", none⟩] "new@user.dev" "password123"
        ≠ .notFound := by
  refine ⟨rfl, rfl, ?_, ?_⟩ <;> decide

/-- C3 counterexample: a durable marker naming an email with no Account in
the store does NOT restore to the Anonymous state — `AuthContext.jsx` sets
`currentUser` to the saved email before the store lookup, and a missing
account only degrades the profile to `null`. -/
theorem c3_restore_stale_marker_not_anonymous :
    restoreSession (some "ghost@user.dev") []
      = ⟨some "ghost@user.dev", none⟩
    ∧ (restoreSession (some "ghost@user.dev") []).currentUser ≠ none := by
  exact ⟨rfl, by decide⟩

/-- C3 amended: for every non-empty durable marker naming an email whose
Account no longer exists in the store, `restoreSession` yields the
Authenticated state with that email and `profile = null` — not an error,
and not Anonymous. -/
theorem c3_restore_stale_marker_authenticated (marker : Option String)
    (users : List Account) (e : String) (hm : marker = some e)
    (hne : e ≠ "")
    (hfind : users.find? (fun u => u.email = e) = none) :
    restoreSession marker users = ⟨some e, none⟩ := by
  subst hm
  simp [restoreSession, String.isEmpty_iff, hne, hfind]

/-- C3 amended, witnessed at a concrete stale marker over the empty
store. -/
theorem c3_restore_stale_marker_authenticated_witness :
    restoreSession (some "stale@user.dev") [] = ⟨some "stale@user.dev", none⟩ :=
  c3_restore_stale_marker_authenticated _ [] "stale@user.dev" rfl
    (by decide) rfl

/-- C4 counterexample: the claim quantifies over every wrong candidate
password, but the empty candidate password is rejected by the server's
missing-field check with 400 before any credential comparison — the
response is `badRequest`, not `wrongCredential`, although `"" ≠ "secret"`
and the account exists. -/
theorem c4_login_empty_password_bad_request :
    ("" : String) ≠ "secret"
    ∧ login [⟨"user@mail.dev", some (bcryptHash "secret"), false, "T0", none⟩]
        "user@mail.dev" "" = .badRequest
    ∧ login [⟨"user@mail.dev", some (bcryptHash "secret"), false, "T0", none⟩]
        "user@mail.dev" "" ≠ .wrongCredential := by
  refine ⟨by decide, rfl, by decide⟩

/-- C4 amended: for every non-empty email and non-empty candidate
password, login on a registered account with a different password fails
`wrongCredential` (401), and login on an email with no account fails
`notFound` (404). -/
theorem c4_login_error_taxonomy (users : List Account) (E w p : String)
    (u : Account) (hE : E ≠ "") (hw : w ≠ "") :
    (users.find? (fun a => a.email = E) = some u →
      u.password = some (bcryptHash p) → w ≠ p →
      login users E w = .wrongCredential)
    ∧ (users.find? (fun a => a.email = E) = none →
      login users E w = .notFound) := by
  constructor
  · intro hfind hcred hne
    have hhash : (bcryptHash p = bcryptHash w) = False := by
      simp only [eq_iff_iff, iff_false]
      intro h
      exact hne (bcryptHash_injective h).symm
    simp [login, isEmpty_false hE, isEmpty_false hw, hfind, hcred,
      bcryptCompare, hhash]
  · intro hfind
    simp [login, isEmpty_false hE, isEmpty_false hw, hfind]

/-- C4 amended, witnessed: a wrong (non-empty) password on a registered
account answers 401, and any password on an unregistered email answers
404. -/
theorem c4_login_error_taxonomy_witness :
    login [⟨"user@mail.dev", some (bcryptHash "secret"), false, "T0", none⟩]
        "user@mail.dev" "guess" = .wrongCredential
    ∧ login [] "user@mail.dev" "guess" = .notFound := by
  constructor
  · exact (c4_login_error_taxonomy
      [⟨"user@mail.dev", some (bcryptHash "secret"), false, "T0", none⟩]
      "user@mail.dev" "guess" "secret"
      ⟨"user@mail.dev", some (bcryptHash "secret"), false, "T0", none⟩
      (by decide) (by decide)).1 (by decide) rfl (by decide)
  · exact (c4_login_error_taxonomy [] "user@mail.dev" "guess" "secret"
      ⟨"user@mail.dev", some (bcryptHash "secret"), false, "T0", none⟩
      (by decide) (by decide)).2 rfl

/-- C5 counterexample: the claim quantifies over every not-yet-registered
email, but the empty email — unregistered in the empty store — is rejected
by the server's missing-field check with 400: signup does not succeed and
no Account is created. -/
theorem c5_signup_empty_email_bad_request :
    ([] : List Account).find? (fun a => a.email = "") = none
    ∧ (signup [] "" "password123" "T0") = (.badRequest, [])
    ∧ (signup [] "" "password123" "T0").1 ≠ .created "" := by
  refine ⟨rfl, rfl, by decide⟩

/-- C5 amended: for every NON-EMPTY email not previously registered and
every non-empty password, signup succeeds (201), the client session
becomes Authenticated with `profile = null`, and a subsequent login with
the same credentials succeeds (200) with `profile = null`. -/
theorem c5_signup_then_login (users : List Account) (E p t : String)
    (sess : ClientSession) (hE : E ≠ "") (hp : p ≠ "")
    (hfresh : users.find? (fun a => a.email = E) = none) :
    (signup users E p t).1 = .created E
    ∧ sessionAfterSignup sess E (signup users E p t).1 = ⟨some E, none⟩
    ∧ login (signup users E p t).2 E p = .ok E none
    ∧ sessionAfterLogin sess E (login (signup users E p t).2 E p)
        = ⟨some E, none⟩ := by
  have hsig : signup users E p t
      = (.created E, users ++ [⟨E, some (bcryptHash p), false, t, none⟩]) := by
    simp [signup, isEmpty_false hE, isEmpty_false hp, hfresh]
  have hlog : login (signup users E p t).2 E p = .ok E none := by
    rw [hsig]
    simp only [login, isEmpty_false hE, isEmpty_false hp, Bool.or_self,
      Bool.false_eq_true, if_false, List.find?_append, hfresh, Option.none_or]
    rw [List.find?_cons_of_pos _ (by simp)]
    simp [bcryptCompare]
  refine ⟨by rw [hsig], by rw [hsig]; rfl, hlog, by rw [hlog]; rfl⟩

/-- C5 amended, witnessed at a concrete fresh email over the empty
store. -/
theorem c5_signup_then_login_witness :
    (signup [] "fresh@user.dev" "password123" "T0").1 = .created "fresh@user.dev"
    ∧ login (signup [] "fresh@user.dev" "password123" "T0").2
        "fresh@user.dev" "password123" = .ok "fresh@user.dev" none := by
  have h := c5_signup_then_login [] "fresh@user.dev" "password123" "T0"
    ⟨none, none⟩ (by decide) (by decide) rfl
  exact ⟨h.1, h.2.2.1⟩

/-- C6: the profile route stamps `completedAt` with the server timestamp —
on every save, for every client object (so a client-sent `completedAt`
cannot survive the spread-then-set order) — and each save fully replaces
the account's prior profile: after the second of two saves with identical
fields the stored profile is the stamped object of the second save alone,
and the two stamped objects differ whenever the two save times differ. -/
theorem c6_profile_stamp_overwrite (users : List Account) (E : String)
    (p : Obj) (t1 t2 : String) (u : Account) (hE : E ≠ "")
    (hfind : users.find? (fun a => a.email = E) = some u) (ht : t1 ≠ t2) :
    (setProfile users E p t1).1 = .saved (stampProfile p t1)
    ∧ objGet (stampProfile p t1) "completedAt" = some t1
    ∧ ((setProfile users E p t1).2.find? (fun a => a.email = E))
        = some { u with profile := some (stampProfile p t1) }
    ∧ (setProfile (setProfile users E p t1).2 E p t2).1
        = .saved (stampProfile p t2)
    ∧ ((setProfile (setProfile users E p t1).2 E p t2).2.find?
          (fun a => a.email = E))
        = some { u with profile := some (stampProfile p t2) }
    ∧ objGet (stampProfile p t2) "completedAt" = some t2
    ∧ stampProfile p t1 ≠ stampProfile p t2 := by
  have h1 : setProfile users E p t1
      = (.saved (stampProfile p t1), setProfileList users E (stampProfile p t1)) := by
    simp [setProfile, isEmpty_false hE, hfind]
  have hf1 := setProfileList_find? hfind (stampProfile p t1)
  have h2 : setProfile (setProfileList users E (stampProfile p t1)) E p t2
      = (.saved (stampProfile p t2),
         setProfileList (setProfileList users E (stampProfile p t1)) E
           (stampProfile p t2)) := by
    simp [setProfile, isEmpty_false hE, hf1]
  have hf2 := setProfileList_find? hf1 (stampProfile p t2)
  refine ⟨by rw [h1], objGet_stampProfile p t1, by rw [h1]; exact hf1,
    by rw [h1]; rw [h2], by rw [h1]; rw [h2]; simpa using hf2,
    objGet_stampProfile p t2, stampProfile_time_ne ht⟩

/-- C6, witnessed: two saves of the same fields at times T1 ≠ T2 on a
one-account store; a client-smuggled `completedAt` is overridden. -/
theorem c6_profile_stamp_overwrite_witness :
    (setProfile [⟨"a@b.dev", some (bcryptHash "pw"), false, "T0", none⟩]
        "a@b.dev" [("fullName", "A"), ("completedAt", "HACK")] "T1").1
      = .saved (stampProfile [("fullName", "A"), ("completedAt", "HACK")] "T1")
    ∧ objGet (stampProfile [("fullName", "A"), ("completedAt", "HACK")] "T1")
        "completedAt" = some "T1"
    ∧ stampProfile [("fullName", "A"), ("completedAt", "HACK")] "T1"
        ≠ stampProfile [("fullName", "A"), ("completedAt", "HACK")] "T2" := by
  have h := c6_profile_stamp_overwrite
    [⟨"a@b.dev", some (bcryptHash "pw"), false, "T0", none⟩] "a@b.dev"
    [("fullName", "A"), ("completedAt", "HACK")] "T1" "T2"
    ⟨"a@b.dev", some (bcryptHash "pw"), false, "T0", none⟩
    (by decide) (by decide) (by decide)
  exact ⟨h.1, h.2.1, h.2.2.2.2.2.2⟩

/-- C7 counterexample: the claim quantifies over every second password,
but signing up a registered email with the empty password answers the
missing-field 400, not the duplicate 409 — although the account exists. -/
theorem c7_signup_duplicate_empty_password :
    ((([⟨"user@mail.dev", some (bcryptHash "secret"), false, "T0", none⟩]
          : List Account).find?
        (fun a => a.email = "user@mail.dev")).isSome = true)
    ∧ signup [⟨"user@mail.dev", some (bcryptHash "secret"), false, "T0", none⟩]
        "user@mail.dev" "" "T1"
      = (.badRequest,
         [⟨"user@mail.dev", some (bcryptHash "secret"), false, "T0", none⟩])
    ∧ (signup [⟨"user@mail.dev", some (bcryptHash "secret"), false, "T0", none⟩]
        "user@mail.dev" "" "T1").1 ≠ .conflict := by
  refine ⟨by decide, rfl, by decide⟩

/-- C7 amended: for every registered (non-empty) email and every NON-EMPTY
second password, signup fails 409 with the store unchanged; and for every
second password whatsoever (the empty one included) the store is
unchanged, so exactly one Account per email is kept. -/
theorem c7_signup_duplicate_conflict (users : List Account) (E p2 t : String)
    (hE : E ≠ "") (hreg : (users.find? (fun a => a.email = E)).isSome)
    (hp : p2 ≠ "") :
    signup users E p2 t = (.conflict, users)
    ∧ ∀ w, (signup users E w t).2 = users := by
  constructor
  · simp [signup, isEmpty_false hE, isEmpty_false hp, hreg]
  · intro w
    by_cases hw : w = ""
    · subst hw; simp [signup, String.isEmpty_iff]
    · simp [signup, isEmpty_false hE, isEmpty_false hw, hreg]

/-- C7 amended, witnessed on a one-account store: a fresh password answers
409 and the store is unchanged, also under the empty password. -/
theorem c7_signup_duplicate_conflict_witness :
    signup [⟨"user@mail.dev", some (bcryptHash "secret"), false, "T0", none⟩]
        "user@mail.dev" "newpass" "T1"
      = (.conflict,
         [⟨"user@mail.dev", some (bcryptHash "secret"), false, "T0", none⟩])
    ∧ (signup [⟨"user@mail.dev", some (bcryptHash "secret"), false, "T0", none⟩]
        "user@mail.dev" "" "T1").2
      = [⟨"user@mail.dev", some (bcryptHash "secret"), false, "T0", none⟩] := by
  have h := c7_signup_duplicate_conflict
    [⟨"user@mail.dev", some (bcryptHash "secret"), false, "T0", none⟩]
    "user@mail.dev" "newpass" "T1" (by decide) (by decide) (by decide)
  exact ⟨h.1, h.2 ""⟩

/-- C8: the profile route leaves every non-profile field of every stored
account untouched (the stores agree after erasing all profile fields), and
every account whose email differs from the targeted one is entirely
unchanged at its position. -/
theorem c8_setProfile_frame (users : List Account) (E : String) (p : Obj)
    (now : String) (hE : E ≠ "")
    (hreg : (users.find? (fun a => a.email = E)).isSome) :
    ((setProfile users E p now).2.map (fun a => { a with profile := none })
        = users.map (fun a => { a with profile := none }))
    ∧ ∀ (i : Nat) (a : Account), users[i]? = some a → a.email ≠ E →
        ((setProfile users E p now).2)[i]? = some a := by
  have h1 : (setProfile users E p now).2
      = setProfileList users E (stampProfile p now) := by
    simp [setProfile, isEmpty_false hE, hreg]
  rw [h1]
  exact ⟨setProfileList_map_eraseProfile users E _,
    fun i a h hne => setProfileList_getElem?_ne users E _ i a h hne⟩

/-- C8, witnessed on a two-account store: saving the first account's
profile leaves the second account untouched and all non-profile fields
equal. -/
theorem c8_setProfile_frame_witness :
    ((setProfile
        ([⟨"a@b.dev", some (bcryptHash "pw"), false, "T0", none⟩,
          ⟨"g@b.dev", none, true, "T1", none⟩] : List Account)
        "a@b.dev" [("fullName", "A")] "T2").2.map
          (fun a => { a with profile := none })
      = ([⟨"a@b.dev", some (bcryptHash "pw"), false, "T0", none⟩,
          ⟨"g@b.dev", none, true, "T1", none⟩] : List Account).map
          (fun a => { a with profile := none }))
    ∧ ((setProfile
        ([⟨"a@b.dev", some (bcryptHash "pw"), false, "T0", none⟩,
          ⟨"g@b.dev", none, true, "T1", none⟩] : List Account)
        "a@b.dev" [("fullName", "A")] "T2").2)[1]?
      = some ⟨"g@b.dev", none, true, "T1", none⟩ := by
  have h := c8_setProfile_frame
    [⟨"a@b.dev", some (bcryptHash "pw"), false, "T0", none⟩,
     ⟨"g@b.dev", none, true, "T1", none⟩]
    "a@b.dev" [("fullName", "A")] "T2" (by decide) (by decide)
  exact ⟨h.1, h.2 1 ⟨"g@b.dev", none, true, "T1", none⟩ (by decide) (by decide)⟩

/-- C9: GET /api/users depends only on the credential-erased store — any
two stores that agree after erasing every password produce identical
listings, so no stored password (hash) reaches the output. -/
theorem c9_listAccounts_credential_noninterference (st1 st2 : List Account)
    (h : st1.map (fun a => { a with password := none })
        = st2.map (fun a => { a with password := none })) :
    listAccounts st1 = listAccounts st2 := by
  have key : ∀ st : List Account,
      listAccounts st
        = (st.map (fun a => { a with password := none })).map toPublic := by
    intro st
    rw [List.map_map]
    rfl
  rw [key st1, key st2, h]

/-- C9, witnessed: two one-account stores differing only in the stored
hash produce the same listing. -/
theorem c9_listAccounts_credential_noninterference_witness :
    listAccounts [⟨"a@b.dev", some (bcryptHash "one"), false, "T0", none⟩]
      = listAccounts [⟨"a@b.dev", some (bcryptHash "two"), false, "T0", none⟩] :=
  c9_listAccounts_credential_noninterference _ _ (by decide)

/-- C10: when the durable account file is missing, unreadable or holds
unparseable JSON, `readUsers` yields the empty list and every operation
behaves as over an empty store — login answers 404, the profile route
answers 404 leaving the file as-is, and signup succeeds, rewriting the
file with that single account; no distinct corruption error exists in any
route's outcome. -/
theorem c10_corrupted_file_acts_empty (f : FileContent)
    (hf : corruptedFile f) (E p t : String) (q : Obj) (hE : E ≠ "")
    (hp : p ≠ "") :
    readUsers f = []
    ∧ fileLogin f E p = .notFound
    ∧ fileSetProfile f E q t = (.notFound, f)
    ∧ fileSignup f E p t
        = (.created E, .stored [⟨E, some (bcryptHash p), false, t, none⟩]) := by
  have hread : readUsers f = [] := by
    rcases hf with h | h | h <;> subst h <;> rfl
  have hlog : fileLogin f E p = .notFound := by
    simp [fileLogin, hread, login, isEmpty_false hE, isEmpty_false hp]
  have hset : setProfile (readUsers f) E q t = (.notFound, readUsers f) := by
    simp [hread, setProfile, isEmpty_false hE]
  have hsig : signup (readUsers f) E p t
      = (.created E, [⟨E, some (bcryptHash p), false, t, none⟩]) := by
    simp [hread, signup, isEmpty_false hE, isEmpty_false hp]
  refine ⟨hread, hlog, ?_, ?_⟩
  · rw [fileSetProfile, hset]
  · rw [fileSignup, hsig]; rfl

/-- C10, witnessed on the missing file. -/
theorem c10_corrupted_file_acts_empty_witness :
    fileLogin .missing "a@b.dev" "pw" = .notFound
    ∧ fileSignup .missing "a@b.dev" "pw" "T0"
      = (.created "a@b.dev",
         .stored [⟨"a@b.dev", some (bcryptHash "pw"), false, "T0", none⟩]) := by
  have h := c10_corrupted_file_acts_empty .missing (Or.inl rfl)
    "a@b.dev" "pw" "T0" [] (by decide) (by decide)
  exact ⟨h.2.1, h.2.2.2⟩

end WQ
